import Mathlib

/-!
Verification development for the Enhanced RPA Openshift orchestrator core.

Shallow embedding of the orchestrator-container modules:
  totp_manager.py          (code arbiter: TOTP generation / reservation)
  browser_service_manager.py (sandbox provisioner)
  enhanced_orchestrator.py (job dispatcher, worker locator, completion handler)

External collaborators (the Valkey store, the Kubernetes API, the job
database, worker HTTP endpoints) are modelled by explicit environments:
each remote call's outcome is an input, and the embedded functions mirror
the Python control flow (including try/except paths) over those outcomes.
Machine integers do not overflow in the source ranges involved, so Nat is
used for times and counters.
-/

namespace RPA

/-- Job lifecycle states, from the orchestrator job state machine. -/
inductive JobStatus where
  | pending
  | dispatching
  | running
  | completed
  | failed
  deriving DecidableEq, Repr

/-! ## Valkey reservation store (collaborator of totp_manager.py)

The store backing `_reserve_code` / `_is_code_used`.  An entry is
(key, expiry-time, holder job id).  Valkey SET NX EX atomically sets the
key only when absent, with expiry `ttl` seconds from now; an expired key
behaves as absent. -/

/-- One reservation entry: key, absolute expiry time, holder job id. -/
structure Entry where
  key : String
  expiry : Nat
  jobId : Nat
  deriving DecidableEq, Repr

/-- Does an unexpired entry for `key` exist at time `now`?  Mirrors the
Valkey EXISTS call made by `_is_code_used`. -/
def existsUnexpired (store : List Entry) (now : Nat) (key : String) : Bool :=
  store.any (fun e => e.key == key && decide (now < e.expiry))

/-- Valkey SET key value NX EX ttl, as used by `_reserve_code`:
succeeds (returns true) exactly when no unexpired entry for `key` exists,
inserting an entry expiring `ttl` seconds from `now`. -/
def setNX (store : List Entry) (now : Nat) (key : String) (ttl : Nat)
    (jobId : Nat) : Bool × List Entry :=
  if existsUnexpired store now key then
    (false, store)
  else
    (true, { key := key, expiry := now + ttl, jobId := jobId } :: store)

/-! ## totp_manager.py -/

/-- `self.totp_window = 30` — TOTP codes valid for 30 seconds. -/
def totp_window : Nat := 30

/-- `self.used_codes_ttl = 60` — track used codes for 60 seconds. -/
def used_codes_ttl : Nat := 60

/-- Reservation key `totp:used:{provider}:{code}`. -/
def totpKey (provider code : String) : String :=
  "totp:used:" ++ provider ++ ":" ++ code

/-- `_wait_for_next_window`: the sleep duration
`totp_window - (now mod totp_window) + 1`. -/
def wait_for_next_window (now : Nat) : Nat :=
  totp_window - now % totp_window + 1

/-- `_is_code_used` maps the outcome of the Valkey EXISTS call to a Bool:
on a store error it logs and returns True ("err on the side of caution"). -/
def is_code_used_result (r : Except Unit Bool) : Bool :=
  match r with
  | Except.error _ => true
  | Except.ok b => b

/-- State threaded through `get_fresh_totp_code`: the wall clock, the
reservation store, and the log of sleep durations performed by
`_wait_for_next_window` (in call order). -/
structure TState where
  now : Nat
  store : List Entry
  sleeps : List Nat
  deriving DecidableEq, Repr

/-- `time.sleep(wait_time)` inside `_wait_for_next_window`: advances the
clock by the computed wait and records the sleep. -/
def sleepNextWindow (st : TState) : TState :=
  { st with
    now := st.now + wait_for_next_window st.now
    sleeps := st.sleeps ++ [wait_for_next_window st.now] }

/-- Fault model for the two Valkey calls made per attempt of
`get_fresh_totp_code`: `existsErr k` (resp. `reserveErr k`) says the
store call inside `_is_code_used` (resp. `_reserve_code`) raises on
attempt `k`.  In the source both exceptions are caught locally:
`_is_code_used` then returns True, `_reserve_code` returns False. -/
structure Faults where
  existsErr : Nat → Bool
  reserveErr : Nat → Bool

/-- The fault-free store client. -/
def noFaults : Faults where
  existsErr := fun _ => false
  reserveErr := fun _ => false

/-- The attempt loop of `get_fresh_totp_code` (`for attempt in
range(max_retries)`), fuel = remaining attempts, `attempt` = current
attempt index.  `gen w` is the TOTP code `totp.now()` produces during
window `w` (the code is a pure function of the secret and the 30 s
window).  Per attempt: generate the code; if `_is_code_used` says unused,
try `_reserve_code`; on success return the code; otherwise (used, or
reservation failed) `_wait_for_next_window()` and retry.  After the loop,
return None. -/
def get_fresh_go (faults : Faults) (gen : Nat → String) (provider : String)
    (jobId : Nat) : Nat → Nat → TState → Option String × TState
  | 0, _, st => (none, st)
  | fuel + 1, attempt, st =>
    let code := gen (st.now / totp_window)
    let key := totpKey provider code
    let used :=
      if faults.existsErr attempt then true
      else existsUnexpired st.store st.now key
    if used then
      get_fresh_go faults gen provider jobId fuel (attempt + 1)
        (sleepNextWindow st)
    else
      match (if faults.reserveErr attempt then (false, st.store)
             else setNX st.store st.now key used_codes_ttl jobId) with
      | (true, store2) => (some code, { st with store := store2 })
      | (false, store2) =>
        get_fresh_go faults gen provider jobId fuel (attempt + 1)
          (sleepNextWindow { st with store := store2 })

/-- `get_fresh_totp_code(provider, job_id, max_retries=3)`, for a provider
whose secret is loaded (the no-secret early return is the `none` case of
the caller's environment and not needed by the claims).  Metrics recording
(`_record_totp_generation`) only touches counters and is omitted from the
returned reservation store. -/
def get_fresh_totp_code (faults : Faults) (gen : Nat → String)
    (provider : String) (jobId : Nat) (st : TState)
    (max_retries : Nat := 3) : Option String × TState :=
  get_fresh_go faults gen provider jobId max_retries 0 st

/-! ## mark_totp_consumed (totp_manager.py)

The state touched by `mark_totp_consumed`: the consumption record keys
`totp:consumed:{provider}:{job_id}` (the JSON value's `success` field is
kept; the `consumed_at` timestamp carries no information the claims use
and is abstracted away) and the per-provider metrics counters
`totp:metrics:{provider}:success` / `:failure`. -/

/-- Metrics / consumption-record portion of the Valkey store. -/
structure MState where
  consumed : List (String × Bool)
  counters : List (String × Nat)
  deriving DecidableEq, Repr

/-- Valkey SET (unconditional): overwrite the value under `key`. -/
def setKey (m : List (String × Bool)) (key : String) (v : Bool) :
    List (String × Bool) :=
  (key, v) :: m.filter (fun e => e.1 ≠ key)

/-- Valkey INCR on a counter key. -/
def incrKey (m : List (String × Nat)) (key : String) : List (String × Nat) :=
  match m.lookup key with
  | some n => (key, n + 1) :: m.filter (fun e => e.1 ≠ key)
  | none => (key, 1) :: m

/-- Counter value under `key` (0 when absent). -/
def counterOf (m : List (String × Nat)) (key : String) : Nat :=
  (m.lookup key).getD 0

/-- `mark_totp_consumed(provider, job_id, success)`: writes the
consumption record, then increments the success or failure counter.  The
whole body is wrapped in try/except with errors only logged, so the
function is total (never raises); `valkeyErr` models the store raising,
in which case the state is left as the handler found it. -/
def mark_totp_consumed (valkeyErr : Bool) (st : MState) (provider : String)
    (jobId : Nat) (success : Bool) : MState :=
  if valkeyErr then st
  else
    let key := "totp:consumed:" ++ provider ++ ":" ++ toString jobId
    let st := { st with consumed := setKey st.consumed key success }
    if success then
      { st with
        counters := incrKey st.counters ("totp:metrics:" ++ provider ++ ":success") }
    else
      { st with
        counters := incrKey st.counters ("totp:metrics:" ++ provider ++ ":failure") }

/-! ## find_available_worker (enhanced_orchestrator.py) -/

/-- Outcome of evaluating the per-endpoint probe expression
`requests.get(f"{worker_url}/status", timeout=2)` inside the loop's try:
either it raises (handled by the except clause, which continues to the
next endpoint), or it yields an HTTP status code together with the JSON
body's `available` flag (absent = false, per
`status.get("available", False)`). -/
inductive ProbeResult where
  | err
  | http (code : Nat) (available : Bool)
  deriving DecidableEq, Repr

/-- The probe the source actually performs.  `requests` is never imported
in enhanced_orchestrator.py, so evaluating `requests.get(...)` raises
NameError — an Exception — before any HTTP request is issued, and the
per-endpoint except clause catches it.  Every probe therefore raises,
regardless of the endpoint. -/
def worker_status_probe (_w : String) : ProbeResult := ProbeResult.err

/-- `find_available_worker()`: iterate the configured WORKER_URLS in
order; on a raised probe, catch and continue with the next endpoint; on
a response, return the endpoint when the status is 200 and the body
reports available; return None when the list is exhausted.  The probe is
`worker_status_probe`, which always raises (unbound `requests`), so the
200-and-available branch is dead code in the source. -/
def find_available_worker : List String → Option String
  | [] => none
  | w :: ws =>
    match worker_status_probe w with
    | ProbeResult.err => find_available_worker ws
    | ProbeResult.http code available =>
      if code == 200 && available then some w
      else find_available_worker ws

/-! ## browser_service_manager.py -/

/-- Result of one Kubernetes delete call, as seen by the except-clauses
of `_cleanup_resources`: success, ApiException(404), or another
ApiException. -/
inductive DeleteResult where
  | ok
  | notFound
  | apiError
  deriving DecidableEq, Repr

/-- `_cleanup_resources(pod_name, service_name)`: success starts True;
delete the pod (an ApiException with status 404 is ignored, any other
sets success False); then delete the service likewise; return success.
Both deletes are always attempted. -/
def cleanup_resources (podDel svcDel : DeleteResult) : Bool :=
  let success := true
  let success :=
    match podDel with
    | DeleteResult.ok => success
    | DeleteResult.notFound => success
    | DeleteResult.apiError => false
  let success :=
    match svcDel with
    | DeleteResult.ok => success
    | DeleteResult.notFound => success
    | DeleteResult.apiError => false
  success

/-- Environment of one `provision_browser_service` run: the outcome of
each external step.  `createPodOk` / `createServiceOk`: the two
`create_namespaced_*` calls (False = ApiException raised); `podReady`:
result of `_wait_for_pod_ready` (120 s bounded poll); `healthOk`: result
of `_verify_browser_health` (10 attempts, 2 s apart); `podDel` /
`svcDel`: outcomes of the delete calls should `_cleanup_resources` run. -/
structure ProvisionEnv where
  createPodOk : Bool
  createServiceOk : Bool
  podReady : Bool
  healthOk : Bool
  podDel : DeleteResult
  svcDel : DeleteResult
  deriving DecidableEq, Repr

/-- The service info dict returned on success (fields the dispatcher
uses). -/
structure ServiceInfo where
  service_id : String
  service_url : String
  deriving DecidableEq, Repr

/-- Observable effects of one `provision_browser_service` run. -/
structure ProvOutcome where
  result : Option ServiceInfo
  podCreated : Bool
  serviceCreated : Bool
  podDeleteInvoked : Bool
  serviceDeleteInvoked : Bool
  registered : Bool
  deriving DecidableEq, Repr

/-- `provision_browser_service(job_id)`: build the ids
(`service_id = "browser-{job_id}-{suffix}"` with `suffix` the 8-hex-char
uuid fragment), create the pod, create the service, wait for pod
readiness, then verify application health; on readiness or health
failure call `_cleanup_resources` and return None; an ApiException from
either create call is caught by the outer handler, which returns None
WITHOUT invoking any cleanup; on success register the service in
`active_services` and return its info. -/
def provision_browser_service (env : ProvisionEnv) (jobId : Nat)
    (suffix : String) : ProvOutcome :=
  let service_id := "browser-" ++ toString jobId ++ "-" ++ suffix
  let service_name := "rpa-browser-service-" ++ service_id
  if ¬ env.createPodOk then
    { result := none, podCreated := false, serviceCreated := false
      podDeleteInvoked := false, serviceDeleteInvoked := false
      registered := false }
  else if ¬ env.createServiceOk then
    { result := none, podCreated := true, serviceCreated := false
      podDeleteInvoked := false, serviceDeleteInvoked := false
      registered := false }
  else if ¬ env.podReady then
    { result := none, podCreated := true, serviceCreated := true
      podDeleteInvoked := true, serviceDeleteInvoked := true
      registered := false }
  else if ¬ env.healthOk then
    { result := none, podCreated := true, serviceCreated := true
      podDeleteInvoked := true, serviceDeleteInvoked := true
      registered := false }
  else
    { result := some
        { service_id := service_id
          service_url :=
            "http://" ++ service_name ++ ".rpa-system.svc.cluster.local:8080" }
      podCreated := true, serviceCreated := true
      podDeleteInvoked := false, serviceDeleteInvoked := false
      registered := true }

/-! ## dispatch_job (enhanced_orchestrator.py)

The body of `dispatch_job` is one try/except.  External calls that the
source catches internally never raise into this body:
`get_fresh_totp_code` returns None on any failure,
`provision_browser_service` catches its Kubernetes exceptions and returns
None, `send_job_to_worker` catches and returns `{"status": "error"}`,
`terminate_browser_service` catches and returns a Bool.  The job-store
writes (`db.update_job_status`) are modelled as succeeding: the database
is an external collaborator and no claim concerns its failure. -/

/-- Environment of one `dispatch_job` run: the outcome of each external
call. `totpResult` is the value `get_fresh_totp_code` returns when the
provider requires TOTP; `sendAccepted` says whether `send_job_to_worker`
returned `{"status": "accepted"}`. -/
structure DispatchEnv where
  requiresTotp : Bool
  totpResult : Option String
  provisionResult : Option ServiceInfo
  workerResult : Option String
  sendAccepted : Bool
  deriving DecidableEq, Repr

/-- Binding state of the Python local `browser_service_info` at the point
an exception reaches the except-handler: not yet assigned, assigned None,
or assigned a service-info dict.  The handler's guard
`if 'browser_service_info' in locals()` distinguishes only bound from
unbound; a bound None then raises TypeError at the subscript
`browser_service_info['service_id']`. -/
inductive BSIVar where
  | unbound
  | boundNone
  | bound (info : ServiceInfo)
  deriving DecidableEq, Repr

/-- Observable job-side state of a dispatch run: the job status last
written to the store, how many times `terminate_browser_service` was
invoked, whether `provision_browser_service` was called, and the
`totp_code` field of the worker payload once the payload dict is built. -/
structure DState where
  status : JobStatus
  terminateCalls : Nat
  provisionCalled : Bool
  payload : Option (Option String)
  deriving DecidableEq, Repr

/-- An exception leaving the try-body: its message, the binding state of
`browser_service_info`, and the observable state at the raise point. -/
structure DispatchExc where
  msg : String
  bsi : BSIVar
  st : DState
  deriving DecidableEq, Repr

/-- The try-body of `dispatch_job`: set status dispatching; if the
provider requires TOTP, fetch a code (the result is NOT checked for
None); provision the browser service, raising if it returned None; find
a worker, raising if none; build the payload (carrying `totp_code` as
produced, possibly null) and send it; on acceptance set status running,
otherwise raise. -/
def dispatch_try (env : DispatchEnv) : Except DispatchExc DState :=
  let s : DState :=
    { status := JobStatus.dispatching, terminateCalls := 0
      provisionCalled := false, payload := none }
  let totp_code : Option String :=
    if env.requiresTotp then env.totpResult else none
  let s := { s with provisionCalled := true }
  match env.provisionResult with
  | none =>
    Except.error
      { msg := "Failed to provision browser service", bsi := BSIVar.boundNone
        st := s }
  | some info =>
    match env.workerResult with
    | none =>
      Except.error
        { msg := "No available workers", bsi := BSIVar.bound info, st := s }
    | some _w =>
      let s := { s with payload := some totp_code }
      if env.sendAccepted then
        Except.ok { s with status := JobStatus.running }
      else
        Except.error
          { msg := "Worker rejected job", bsi := BSIVar.bound info, st := s }

/-- Result of a whole `dispatch_job` call: `escaped` is the message of an
exception that propagated out of the function (the except-handler itself
raising), and the final observable state. -/
structure DispatchResult where
  escaped : Option String
  state : DState
  deriving DecidableEq, Repr

/-- The except-handler of `dispatch_job`: when `browser_service_info` is
bound, subscript it and terminate that service — but if it is bound to
None the subscript raises TypeError, the handler aborts, and the
failed-status update below it is never executed; otherwise (terminated,
or the name unbound) set status failed. -/
def dispatch_except (e : DispatchExc) : DispatchResult :=
  match e.bsi with
  | BSIVar.unbound =>
    { escaped := none, state := { e.st with status := JobStatus.failed } }
  | BSIVar.boundNone =>
    { escaped := some "TypeError: NoneType object is not subscriptable"
      state := e.st }
  | BSIVar.bound _info =>
    { escaped := none
      state :=
        { e.st with
          status := JobStatus.failed
          terminateCalls := e.st.terminateCalls + 1 } }

/-- `dispatch_job(job_dict)`: run the try-body; route any exception to
the except-handler. -/
def dispatch_job (env : DispatchEnv) : DispatchResult :=
  match dispatch_try env with
  | Except.ok s => { escaped := none, state := s }
  | Except.error e => dispatch_except e

/-! ## job_complete_callback (enhanced_orchestrator.py) -/

/-- Environment of one completion callback: whether the job-store status
update raises, whether the payload carries a `browser_service_id`,
whether it flags `totp_used`, and whether `CALLBACK_ENDPOINT` is
configured. -/
structure CallbackEnv where
  updateStatusOk : Bool
  hasServiceId : Bool
  totpUsed : Bool
  callbackConfigured : Bool
  deriving DecidableEq, Repr

/-- Which of the four completion effects were attempted, and whether the
endpoint answered HTTP 500. -/
structure CallbackOutcome where
  statusPersisted : Bool
  terminateAttempted : Bool
  markAttempted : Bool
  reportAttempted : Bool
  http500 : Bool
  deriving DecidableEq, Repr

/-- `job_complete_callback(request)`: one try-block runs, in order,
(1) `db.update_job_status`, (2) `terminate_browser_service` when a
service id is present, (3) `mark_totp_consumed` when `totp_used`,
(4) `send_external_report` when a callback endpoint is configured.
Effects 2-4 catch their own errors internally (see their sources) and so
cannot abort the block, but an exception from the status update at step 1
reaches the outer handler, which returns HTTP 500 — steps 2-4 are then
never attempted. -/
def job_complete_callback (env : CallbackEnv) : CallbackOutcome :=
  if env.updateStatusOk then
    { statusPersisted := true
      terminateAttempted := env.hasServiceId
      markAttempted := env.totpUsed
      reportAttempted := env.callbackConfigured
      http500 := false }
  else
    { statusPersisted := false
      terminateAttempted := false
      markAttempted := false
      reportAttempted := false
      http500 := true }

/-! ## Theorems -/

/-- C1: the claim states that when `get_fresh_totp_code` returns None
the job is failed with reason "code acquisition exhausted" and dispatch
stops without provisioning a sandbox.  Counterexample, at an input the
source can reach (all TOTP attempts conflict so acquisition returns
None; provisioning succeeds; the worker lookup returns None, as it
always does since `requests` is unbound): dispatch does NOT stop —
a sandbox is provisioned, and the run ends failed only later, via the
"No available workers" exception, after terminating the sandbox it
should never have created. -/
theorem C1_counterexample :
    (dispatch_job
      { requiresTotp := true, totpResult := none
        provisionResult := some
          { service_id := "browser-7-1a2b3c4d"
            service_url := "http://svc:8080" }
        workerResult := none
        sendAccepted := false }).state.provisionCalled = true ∧
    (dispatch_job
      { requiresTotp := true, totpResult := none
        provisionResult := some
          { service_id := "browser-7-1a2b3c4d"
            service_url := "http://svc:8080" }
        workerResult := none
        sendAccepted := false }).state.terminateCalls = 1 ∧
    (dispatch_job
      { requiresTotp := true, totpResult := none
        provisionResult := some
          { service_id := "browser-7-1a2b3c4d"
            service_url := "http://svc:8080" }
        workerResult := none
        sendAccepted := false }).state.status = JobStatus.failed :=
  ⟨rfl, rfl, rfl⟩

/-- C1 (amended): when code acquisition returns None, dispatch does not
stop and there is no "code acquisition exhausted" failure: provisioning
is still attempted.  Since the worker lookup always returns None in the
source (unbound `requests`), a successfully provisioned sandbox is then
terminated and the job marked failed by the "No available workers" path;
if provisioning fails instead, the job is left in `dispatching`. -/
theorem C1_amended_provisions_despite_code_none (env : DispatchEnv)
    (h1 : env.requiresTotp = true) (h2 : env.totpResult = none)
    (h3 : env.workerResult = none) :
    (dispatch_job env).state.provisionCalled = true ∧
    (∀ info, env.provisionResult = some info →
      (dispatch_job env).state.status = JobStatus.failed ∧
      (dispatch_job env).state.terminateCalls = 1) ∧
    (env.provisionResult = none →
      (dispatch_job env).state.status = JobStatus.dispatching) := by
  obtain ⟨rt, tr, pr, wr, sa⟩ := env
  simp only at h1 h2 h3
  subst h1; subst h2; subst h3
  cases pr <;> simp [dispatch_job, dispatch_try, dispatch_except]

/-- C1 witness: the amended statement at a concrete environment where
provisioning succeeds. -/
theorem C1_amended_witness :
    (dispatch_job
      { requiresTotp := true, totpResult := none
        provisionResult := some
          { service_id := "browser-9-00aa00aa", service_url := "http://s:8080" }
        workerResult := none
        sendAccepted := false }).state.provisionCalled = true ∧
    (dispatch_job
      { requiresTotp := true, totpResult := none
        provisionResult := some
          { service_id := "browser-9-00aa00aa", service_url := "http://s:8080" }
        workerResult := none
        sendAccepted := false }).state.status = JobStatus.failed :=
  ⟨(C1_amended_provisions_despite_code_none
      { requiresTotp := true, totpResult := none
        provisionResult := some
          { service_id := "browser-9-00aa00aa", service_url := "http://s:8080" }
        workerResult := none
        sendAccepted := false } rfl rfl rfl).1,
   ((C1_amended_provisions_despite_code_none
      { requiresTotp := true, totpResult := none
        provisionResult := some
          { service_id := "browser-9-00aa00aa", service_url := "http://s:8080" }
        workerResult := none
        sendAccepted := false } rfl rfl rfl).2.1
      { service_id := "browser-9-00aa00aa", service_url := "http://s:8080" }
      rfl).1⟩

/-- C2: the claim (and the except-handler's own "Update job status to
failed" comment) requires every dispatch path to end in running or
failed.  But when provisioning returns None, the handler's guard
`'browser_service_info' in locals()` is true while the variable is None,
so `browser_service_info['service_id']` raises TypeError before the
failed-status update: the exception escapes `dispatch_job` and the job
stays in `dispatching`. -/
theorem C2_provision_failure_leaves_dispatching :
    (dispatch_job
      { requiresTotp := false, totpResult := none
        provisionResult := none, workerResult := none
        sendAccepted := false }).state.status = JobStatus.dispatching ∧
    (dispatch_job
      { requiresTotp := false, totpResult := none
        provisionResult := none, workerResult := none
        sendAccepted := false }).escaped =
      some "TypeError: NoneType object is not subscriptable" :=
  ⟨rfl, rfl⟩

/-- C5: when provisioning succeeds but no worker is available, the
except-handler terminates exactly the one provisioned sandbox and marks
the job failed, and no exception escapes `dispatch_job`. -/
theorem C5_no_worker_terminates_sandbox_once (env : DispatchEnv)
    (info : ServiceInfo) (h1 : env.provisionResult = some info)
    (h2 : env.workerResult = none) :
    (dispatch_job env).state.status = JobStatus.failed ∧
    (dispatch_job env).state.terminateCalls = 1 ∧
    (dispatch_job env).escaped = none := by
  obtain ⟨rt, tr, pr, wr, sa⟩ := env
  simp only at h1 h2
  subst h1; subst h2
  simp [dispatch_job, dispatch_try, dispatch_except]

/-- C5 witness: the theorem at a concrete environment. -/
theorem C5_witness :
    (dispatch_job
      { requiresTotp := false, totpResult := none
        provisionResult := some
          { service_id := "browser-3-00ff00ff", service_url := "http://s:8080" }
        workerResult := none, sendAccepted := false }).state.status
      = JobStatus.failed ∧
    (dispatch_job
      { requiresTotp := false, totpResult := none
        provisionResult := some
          { service_id := "browser-3-00ff00ff", service_url := "http://s:8080" }
        workerResult := none, sendAccepted := false }).state.terminateCalls = 1 ∧
    (dispatch_job
      { requiresTotp := false, totpResult := none
        provisionResult := some
          { service_id := "browser-3-00ff00ff", service_url := "http://s:8080" }
        workerResult := none, sendAccepted := false }).escaped = none :=
  C5_no_worker_terminates_sandbox_once
    { requiresTotp := false, totpResult := none
      provisionResult := some
        { service_id := "browser-3-00ff00ff", service_url := "http://s:8080" }
      workerResult := none, sendAccepted := false }
    { service_id := "browser-3-00ff00ff", service_url := "http://s:8080" }
    rfl rfl

/-- C6: the claim states the four completion effects are each
independently best-effort.  Counterexample: when persisting the final
status raises, the endpoint's outer handler answers HTTP 500 and none of
sandbox termination, code-consumption marking, or the external report is
attempted. -/
theorem C6_counterexample :
    (job_complete_callback
      { updateStatusOk := false, hasServiceId := true
        totpUsed := true, callbackConfigured := true }).terminateAttempted
      = false ∧
    (job_complete_callback
      { updateStatusOk := false, hasServiceId := true
        totpUsed := true, callbackConfigured := true }).markAttempted = false ∧
    (job_complete_callback
      { updateStatusOk := false, hasServiceId := true
        totpUsed := true, callbackConfigured := true }).reportAttempted
      = false ∧
    (job_complete_callback
      { updateStatusOk := false, hasServiceId := true
        totpUsed := true, callbackConfigured := true }).http500 = true :=
  ⟨rfl, rfl, rfl, rfl⟩

/-- C6 (amended): effects 2-4 (terminate sandbox, mark code consumed,
external report) swallow their own errors internally and so cannot block
one another — once the status persist succeeds all applicable ones are
attempted — but the status persist itself is not isolated: if it raises,
effects 2-4 are all skipped and the endpoint returns HTTP 500. -/
theorem C6_amended_effects_gated_on_persist (env : CallbackEnv) :
    (env.updateStatusOk = true →
      (job_complete_callback env).terminateAttempted = env.hasServiceId ∧
      (job_complete_callback env).markAttempted = env.totpUsed ∧
      (job_complete_callback env).reportAttempted = env.callbackConfigured) ∧
    (env.updateStatusOk = false →
      (job_complete_callback env).terminateAttempted = false ∧
      (job_complete_callback env).markAttempted = false ∧
      (job_complete_callback env).reportAttempted = false ∧
      (job_complete_callback env).http500 = true) := by
  obtain ⟨u, hs, t, c⟩ := env
  cases u <;> simp [job_complete_callback]

/-- C6 witness: the amended statement at a concrete environment. -/
theorem C6_amended_witness :
    (job_complete_callback
      { updateStatusOk := true, hasServiceId := true
        totpUsed := true, callbackConfigured := true }).terminateAttempted
      = true :=
  ((C6_amended_effects_gated_on_persist
    { updateStatusOk := true, hasServiceId := true
      totpUsed := true, callbackConfigured := true }).1 rfl).1

/-- C3: the claim states that a failure at any of steps 2-4 triggers
deletion of whatever was partially created.  Counterexample: when the
pod is created but the service-creation call raises, the outer
ApiException handler returns None without invoking any deletion — the
pod is leaked. -/
theorem C3_counterexample :
    (provision_browser_service
      { createPodOk := true, createServiceOk := false, podReady := false
        healthOk := false, podDel := DeleteResult.ok
        svcDel := DeleteResult.ok } 7 "1a2b3c4d").result = none ∧
    (provision_browser_service
      { createPodOk := true, createServiceOk := false, podReady := false
        healthOk := false, podDel := DeleteResult.ok
        svcDel := DeleteResult.ok } 7 "1a2b3c4d").podCreated = true ∧
    (provision_browser_service
      { createPodOk := true, createServiceOk := false, podReady := false
        healthOk := false, podDel := DeleteResult.ok
        svcDel := DeleteResult.ok } 7 "1a2b3c4d").podDeleteInvoked = false :=
  ⟨rfl, rfl, rfl⟩

/-- C3 (amended): compensating deletion of both pod and service happens
exactly on the failures of step 3 (readiness polling) and step 4 (the
application health check), and `_cleanup_resources` treats "not found"
(404) on both deletes as success; a creation failure at step 2 returns
None without any deletion. -/
theorem C3_amended_cleanup_on_ready_or_health_failure (env : ProvisionEnv)
    (jobId : Nat) (suffix : String) (hp : env.createPodOk = true)
    (hs : env.createServiceOk = true)
    (hf : env.podReady = false ∨ env.healthOk = false) :
    (provision_browser_service env jobId suffix).result = none ∧
    (provision_browser_service env jobId suffix).podDeleteInvoked = true ∧
    (provision_browser_service env jobId suffix).serviceDeleteInvoked = true ∧
    cleanup_resources DeleteResult.notFound DeleteResult.notFound = true := by
  obtain ⟨cp, cs, pr, hh, pd, sd⟩ := env
  simp only at hp hs hf
  subst hp; subst hs
  rcases hf with h | h
  · subst h
    cases hh <;> simp [provision_browser_service, cleanup_resources]
  · subst h
    cases pr <;> simp [provision_browser_service, cleanup_resources]

/-- C3 witness: the amended statement at a concrete environment (pod and
service created, readiness poll times out). -/
theorem C3_amended_witness :
    (provision_browser_service
      { createPodOk := true, createServiceOk := true, podReady := false
        healthOk := true, podDel := DeleteResult.notFound
        svcDel := DeleteResult.notFound } 7 "1a2b3c4d").result = none ∧
    (provision_browser_service
      { createPodOk := true, createServiceOk := true, podReady := false
        healthOk := true, podDel := DeleteResult.notFound
        svcDel := DeleteResult.notFound } 7 "1a2b3c4d").podDeleteInvoked
      = true ∧
    (provision_browser_service
      { createPodOk := true, createServiceOk := true, podReady := false
        healthOk := true, podDel := DeleteResult.notFound
        svcDel := DeleteResult.notFound } 7 "1a2b3c4d").serviceDeleteInvoked
      = true ∧
    cleanup_resources DeleteResult.notFound DeleteResult.notFound = true :=
  C3_amended_cleanup_on_ready_or_health_failure
    { createPodOk := true, createServiceOk := true, podReady := false
      healthOk := true, podDel := DeleteResult.notFound
      svcDel := DeleteResult.notFound } 7 "1a2b3c4d" rfl rfl (Or.inl rfl)

/-- Overwriting the same key twice with `setKey` equals overwriting it
once. -/
theorem setKey_setKey (m : List (String × Bool)) (key : String) (v : Bool) :
    setKey (setKey m key v) key v = setKey m key v := by
  unfold setKey
  induction m with
  | nil => simp
  | cons e es ih =>
    by_cases h : e.1 = key <;> simp_all [List.filter_cons]

/-- `incrKey` adds exactly one to the counter stored under its key. -/
theorem counterOf_incrKey_self (m : List (String × Nat)) (key : String) :
    counterOf (incrKey m key) key = counterOf m key + 1 := by
  unfold incrKey counterOf
  cases h : m.lookup key <;> simp [List.lookup, h]

/-- C7: the claim states `mark_consumed` is idempotent.  Counterexample:
two calls with identical arguments leave the per-provider success
counter at 2 where a single call leaves it at 1 — the second call has an
additional effect. -/
theorem C7_counterexample :
    counterOf (mark_totp_consumed false
        (mark_totp_consumed false { consumed := [], counters := [] }
          "octotel" 1 true)
        "octotel" 1 true).counters "totp:metrics:octotel:success" = 2 ∧
    counterOf (mark_totp_consumed false { consumed := [], counters := [] }
        "octotel" 1 true).counters "totp:metrics:octotel:success" = 1 := by
  constructor <;> rfl

/-- C7 (amended): `mark_totp_consumed` never raises (its whole body is
try/except with errors only logged, so a store error leaves the state
untouched and returns normally), and the consumption-record write is
idempotent — the same key is overwritten — but the success/failure
counter is incremented by every call, so the operation as a whole is not
idempotent. -/
theorem C7_amended_never_raises_but_counts (st : MState) (provider : String)
    (jobId : Nat) (success : Bool) :
    mark_totp_consumed true st provider jobId success = st ∧
    (mark_totp_consumed false
        (mark_totp_consumed false st provider jobId success)
        provider jobId success).consumed
      = (mark_totp_consumed false st provider jobId success).consumed ∧
    counterOf (mark_totp_consumed false
        (mark_totp_consumed false st provider jobId success)
        provider jobId success).counters
        (if success then "totp:metrics:" ++ provider ++ ":success"
         else "totp:metrics:" ++ provider ++ ":failure")
      = counterOf (mark_totp_consumed false st provider jobId success).counters
          (if success then "totp:metrics:" ++ provider ++ ":success"
           else "totp:metrics:" ++ provider ++ ":failure") + 1 := by
  refine ⟨rfl, ?_, ?_⟩ <;> cases success <;>
    simp [mark_totp_consumed, setKey_setKey, counterOf_incrKey_self]

/-- C9: the claim states `find_available_worker` probes each configured
endpoint and returns the first that reports itself available.  In the
source, `requests` is never imported: every probe raises NameError
before any HTTP request is issued, the per-endpoint except clause
swallows it, and the loop falls through every endpoint — for every pool
the function returns None, so no endpoint can ever be returned. -/
theorem C9_find_available_worker_always_none (workers : List String) :
    find_available_worker workers = none := by
  induction workers with
  | nil => rfl
  | cons w ws ih =>
    simpa [find_available_worker, worker_status_probe] using ih

/-- C7 witness: the amended statement at a concrete state (the
never-raises conjunct: a store error returns with the state
untouched). -/
theorem C7_amended_witness :
    mark_totp_consumed true { consumed := [], counters := [] } "octotel" 1 true
      = { consumed := [], counters := [] } :=
  (C7_amended_never_raises_but_counts { consumed := [], counters := [] }
    "octotel" 1 true).1

/-- C4: the set-if-absent-with-expiry reservation is exclusive: once one
acquire attempt reserves (family, code-value) at time `now`, any second
attempt for the same key at a time `t` before the TTL expires observes a
conflict (the call fails and leaves the store unchanged), and exactly
one unexpired reservation for the key exists throughout that window. -/
theorem C4_reservation_exclusive (store : List Entry)
    (now t ttl jobA jobB : Nat) (key : String)
    (h1 : (setNX store now key ttl jobA).1 = true)
    (h2 : now ≤ t) (h3 : t < now + ttl) :
    (setNX (setNX store now key ttl jobA).2 t key ttl jobB).1 = false ∧
    (setNX (setNX store now key ttl jobA).2 t key ttl jobB).2
      = (setNX store now key ttl jobA).2 ∧
    List.countP (fun e => e.key == key && decide (t < e.expiry))
      (setNX store now key ttl jobA).2 = 1 := by
  by_cases hex : existsUnexpired store now key
  · simp [setNX, hex] at h1
  · have hstore1 : (setNX store now key ttl jobA).2
        = { key := key, expiry := now + ttl, jobId := jobA } :: store := by
      simp [setNX, hex]
    have hhead : existsUnexpired
        ({ key := key, expiry := now + ttl, jobId := jobA } :: store) t key
        = true := by
      simp [existsUnexpired, List.any_cons, h3]
    have hzero : List.countP
        (fun e => e.key == key && decide (t < e.expiry)) store = 0 := by
      rw [List.countP_eq_zero]
      intro e he hpe
      apply hex
      unfold existsUnexpired
      rw [List.any_eq_true]
      refine ⟨e, he, ?_⟩
      simp only [Bool.and_eq_true, beq_iff_eq, decide_eq_true_eq] at hpe ⊢
      exact ⟨hpe.1, by omega⟩
    refine ⟨?_, ?_, ?_⟩
    · rw [hstore1]
      simp [setNX, hhead]
    · rw [hstore1]
      simp [setNX, hhead]
    · rw [hstore1, List.countP_cons]
      simp [hzero, h3]

/-- C4 witness: the exclusivity theorem at a concrete store: job 1
reserves the code at t=0 with the default 60 s TTL; job 2's attempt at
t=30 (the next 30 s code window, same code value) fails. -/
theorem C4_witness :
    (setNX (setNX [] 0 "totp:used:octotel:123456" 60 1).2 30
        "totp:used:octotel:123456" 60 2).1 = false ∧
    (setNX (setNX [] 0 "totp:used:octotel:123456" 60 1).2 30
        "totp:used:octotel:123456" 60 2).2
      = (setNX [] 0 "totp:used:octotel:123456" 60 1).2 ∧
    List.countP
      (fun e => e.key == "totp:used:octotel:123456" && decide (30 < e.expiry))
      (setNX [] 0 "totp:used:octotel:123456" 60 1).2 = 1 :=
  C4_reservation_exclusive [] 0 30 60 1 2 "totp:used:octotel:123456"
    (by decide) (by decide) (by decide)

/-- Unfolding lemma: with no fuel left (the `for` loop over
`range(max_retries)` exhausted), `get_fresh_go` returns None and leaves
the state unchanged. -/
theorem get_fresh_go_zero (faults : Faults) (gen : Nat → String)
    (provider : String) (jobId attempt : Nat) (st : TState) :
    get_fresh_go faults gen provider jobId 0 attempt st = (none, st) := rfl

/-- Unfolding lemma: an attempt that observes the current code as used
sleeps until the next window and retries with one fewer attempt left. -/
theorem get_fresh_go_used (faults : Faults) (gen : Nat → String)
    (provider : String) (jobId fuel attempt : Nat) (st : TState)
    (h : (if faults.existsErr attempt then true
          else existsUnexpired st.store st.now
            (totpKey provider (gen (st.now / totp_window)))) = true) :
    get_fresh_go faults gen provider jobId (fuel + 1) attempt st
      = get_fresh_go faults gen provider jobId fuel (attempt + 1)
          (sleepNextWindow st) := by
  rw [get_fresh_go]
  simp only [h, if_true]

/-- C8: when every one of the (default) three attempts finds its
window's code reserved by another job, `get_fresh_totp_code` sleeps
exactly `totp_window − (now mod totp_window) + 1` seconds before each
retry — the three sleeps are recorded with exactly that value at the
then-current clock — and after the third conflicted attempt returns
None, leaving the reservation store untouched. -/
theorem C8_conflict_waits_and_exhausts (gen : Nat → String)
    (provider : String) (jobId : Nat) (st : TState) (t1 t2 : Nat)
    (ht1 : t1 = st.now + wait_for_next_window st.now)
    (ht2 : t2 = t1 + wait_for_next_window t1)
    (h0 : existsUnexpired st.store st.now
        (totpKey provider (gen (st.now / totp_window))) = true)
    (h1 : existsUnexpired st.store t1
        (totpKey provider (gen (t1 / totp_window))) = true)
    (h2 : existsUnexpired st.store t2
        (totpKey provider (gen (t2 / totp_window))) = true) :
    get_fresh_totp_code noFaults gen provider jobId st
      = (none,
        { now := t2 + wait_for_next_window t2
          store := st.store
          sleeps := st.sleeps
            ++ [wait_for_next_window st.now, wait_for_next_window t1,
                wait_for_next_window t2] }) := by
  subst ht1; subst ht2
  have e3 : get_fresh_totp_code noFaults gen provider jobId st
      = get_fresh_go noFaults gen provider jobId (2 + 1) 0 st := rfl
  rw [e3]
  rw [get_fresh_go_used noFaults gen provider jobId 2 0 st
    (by simpa [noFaults] using h0)]
  rw [show (2 : Nat) = 1 + 1 from rfl]
  rw [get_fresh_go_used noFaults gen provider jobId 1 1 (sleepNextWindow st)
    (by simpa [noFaults, sleepNextWindow] using h1)]
  rw [show (1 : Nat) = 0 + 1 from rfl]
  rw [get_fresh_go_used noFaults gen provider jobId 0 2
    (sleepNextWindow (sleepNextWindow st))
    (by simpa [noFaults, sleepNextWindow] using h2)]
  rw [get_fresh_go_zero]
  simp [sleepNextWindow]

/-- C8 witness: the theorem at a concrete run: clock starts at 0, the
codes of windows 0, 1, 2 are all reserved by job 5; job 9's acquisition
sleeps 31, 30 and 30 seconds (31 = 30 − 0 mod 30 + 1, then
30 − 31 mod 30 + 1 and 30 − 61 mod 30 + 1) and returns None. -/
theorem C8_witness :
    get_fresh_totp_code noFaults (fun w => toString w) "octotel" 9
      { now := 0
        store :=
          [⟨totpKey "octotel" "0", 1000, 5⟩, ⟨totpKey "octotel" "1", 1000, 5⟩,
           ⟨totpKey "octotel" "2", 1000, 5⟩]
        sleeps := [] }
      = (none,
        { now := 91
          store :=
            [⟨totpKey "octotel" "0", 1000, 5⟩,
             ⟨totpKey "octotel" "1", 1000, 5⟩,
             ⟨totpKey "octotel" "2", 1000, 5⟩]
          sleeps := [31, 30, 30] }) := by
  have h := C8_conflict_waits_and_exhausts (fun w => toString w) "octotel" 9
    { now := 0
      store :=
        [⟨totpKey "octotel" "0", 1000, 5⟩, ⟨totpKey "octotel" "1", 1000, 5⟩,
         ⟨totpKey "octotel" "2", 1000, 5⟩]
      sleeps := [] }
    31 61 (by decide) (by decide) (by decide) (by decide) (by decide)
  exact h

/-- C10: the fail-safe in `_is_code_used` — a store error during the
exists-check reports the code as used — and, for every fault pattern of
the store client, `get_fresh_totp_code` returns a code only when the
atomic set-if-absent reservation for that exact code succeeded: the
final store holds an unexpired reservation for the returned code, held
by the requesting job. -/
theorem C10_code_only_when_reserved :
    (∀ e : Unit, is_code_used_result (Except.error e) = true) ∧
    (∀ (faults : Faults) (gen : Nat → String) (provider : String)
        (jobId fuel attempt : Nat) (st : TState) (code : String)
        (st' : TState),
      get_fresh_go faults gen provider jobId fuel attempt st
          = (some code, st') →
      existsUnexpired st'.store st'.now (totpKey provider code) = true ∧
      ∃ e, e ∈ st'.store ∧ e.key = totpKey provider code ∧ e.jobId = jobId) := by
  constructor
  · intro e; rfl
  · intro faults gen provider jobId fuel
    induction fuel with
    | zero =>
      intro attempt st code st' h
      simp [get_fresh_go] at h
    | succ n ih =>
      intro attempt st code st' h
      rw [get_fresh_go] at h
      by_cases hused : (if faults.existsErr attempt then true
          else existsUnexpired st.store st.now
            (totpKey provider (gen (st.now / totp_window)))) = true
      · rw [if_pos hused] at h
        exact ih _ _ _ _ h
      · rw [if_neg hused] at h
        by_cases hre : faults.reserveErr attempt = true
        · rw [if_pos hre] at h
          exact ih _ _ _ _ h
        · rw [if_neg hre] at h
          by_cases hex : existsUnexpired st.store st.now
              (totpKey provider (gen (st.now / totp_window))) = true
          · simp only [setNX, hex, if_true] at h
            exact ih _ _ _ _ h
          · simp only [setNX, hex, if_false, Bool.false_eq_true] at h
            simp only [Prod.mk.injEq, Option.some.injEq] at h
            obtain ⟨hc, hst⟩ := h
            subst hc
            subst hst
            constructor
            · simp only [existsUnexpired, List.any_cons, beq_self_eq_true,
                Bool.true_and, used_codes_ttl, Bool.or_eq_true,
                decide_eq_true_eq]
              left
              omega
            · refine ⟨_, List.mem_cons_self _ _, rfl, rfl⟩

/-- C10 witness: a concrete fault-free run that returns a code; the
theorem yields the unexpired reservation held by the job in the final
store. -/
theorem C10_witness :
    existsUnexpired [⟨totpKey "octotel" "123456", 60, 1⟩] 0
      (totpKey "octotel" "123456") = true ∧
    ∃ e, e ∈ [(⟨totpKey "octotel" "123456", 60, 1⟩ : Entry)] ∧
      e.key = totpKey "octotel" "123456" ∧ e.jobId = 1 := by
  have h := C10_code_only_when_reserved.2 noFaults (fun _ => "123456")
    "octotel" 1 3 0 { now := 0, store := [], sleeps := [] } "123456"
    { now := 0, store := [⟨totpKey "octotel" "123456", 60, 1⟩], sleeps := [] }
    (by decide)
  simpa using h

end RPA
